import Mathlib

/-!
Verification of the core of `geo_data_pipeline.py`: a luigi pipeline
(Download → Extract/Parse → Project) plus a sectioned-text parser.

The shallow embedding below translates the source functions into Lean:

* Python string primitives (`splitlines`, `split("\t")`, `strip("[]\n")`,
  `startswith("[")`, `endswith`) are modelled character-wise, so every
  definition evaluates by kernel reduction.
* `pandas.read_csv(..., sep="\t", header=h)` / `DataFrame.to_csv(..., sep="\t",
  index=False)` are modelled on tables of string cells.  Blank-line skipping,
  the `header=None` integer column naming, the default `header=True` on
  `to_csv`, and the `EmptyDataError` on an all-blank buffer are reproduced;
  pandas' numeric round-trip (parse then print) is the identity on the
  canonical literals that occur in the verified inputs, so cell values are
  kept verbatim.
* The filesystem is a tree of named files and directories; `os.walk` /
  `os.listdir` / size checks are functions on that tree.
-/

namespace GeoPipeline

/-! ### Character-level string primitives (Python semantics) -/

/-- Split a character list on a separator character; like Python
`str.split(sep)`, the empty list yields one empty field. -/
def splitChar (sep : Char) : List Char → List (List Char)
  | [] => [[]]
  | c :: rest =>
    let r := splitChar sep rest
    if c = sep then [] :: r
    else
      match r with
      | [] => [[c]]
      | h :: t => (c :: h) :: t

/-- Python `str.split("\t")` on a string. -/
def splitTab (s : String) : List String :=
  (splitChar '\t' s.data).map (fun cs => ⟨cs⟩)

/-- Python `str.splitlines()` for newline-terminated text: the final empty
field produced by a trailing newline is dropped, and the empty string has no
lines. -/
def pySplitlines (s : String) : List String :=
  match s.data with
  | [] => []
  | l =>
    let parts := splitChar '\n' l
    let parts := if l.getLast? = some '\n' then parts.dropLast else parts
    parts.map (fun cs => ⟨cs⟩)

/-- Python `str.strip(chars)`: remove every leading and trailing character
that belongs to `chars`. -/
def pyStrip (s : String) (chars : List Char) : String :=
  ⟨(((s.data.dropWhile (fun c => chars.contains c)).reverse.dropWhile
      (fun c => chars.contains c)).reverse)⟩

/-- Python `line.startswith("[")`. -/
def startsBracket (line : String) : Bool :=
  match line.data with
  | '[' :: _ => true
  | _ => false

/-- Python `s.endswith(suffix)`. -/
def pyEndsWith (s suffix : String) : Bool :=
  suffix.data.isSuffixOf s.data

/-- Join fields with a separator string (`sep.join(fields)`). -/
def joinSep (sep : String) : List String → String
  | [] => ""
  | [x] => x
  | x :: xs => x ++ sep ++ joinSep sep xs

/-! ### The pandas fragment used by the source -/

/-- `pd.read_csv` header mode: `header=None` versus the default `"infer"`. -/
inductive Header where
  | none
  | infer
deriving DecidableEq

/-- The materialized form of a parsed table: column labels plus rows of
string cells. -/
structure DataFrame where
  cols : List String
  rows : List (List String)
deriving DecidableEq

/-- `pd.read_csv(buffer, sep="\t", header=h)` on the buffered lines.
Blank lines are skipped (`skip_blank_lines=True`); an all-blank buffer raises
`EmptyDataError`; with `header=None` the columns are named `0..n-1` after the
width of the first row, with `header="infer"` the first line gives the column
labels. -/
def readCsv (lines : List String) (h : Header) : Except String DataFrame :=
  match h, lines.filter (fun l => !(l == "")) with
  | _, [] => .error "EmptyDataError"
  | .infer, first :: rest => .ok ⟨splitTab first, rest.map splitTab⟩
  | .none, first :: rest =>
      .ok ⟨(List.range (splitTab first).length).map toString,
            (first :: rest).map splitTab⟩

/-- `df.to_csv(path, sep="\t", index=False)`: the default `header=True`
writes the column labels as the first line, then one line per row, all
newline-terminated. -/
def toCsv (df : DataFrame) : String :=
  ((joinSep "\t" df.cols) :: df.rows.map (joinSep "\t")).foldr
    (fun l acc => l ++ "\n" ++ acc) ""

/-- `df.drop(columns=toRemove, errors="ignore")`: remove the labelled columns
that are present and the cells aligned with them; absent labels are ignored. -/
def dropColumns (df : DataFrame) (toRemove : List String) : DataFrame :=
  { cols := df.cols.filter (fun c => !(toRemove.contains c)),
    rows := df.rows.map (fun r =>
      ((r.zip df.cols).filter (fun p => !(toRemove.contains p.2))).map
        (fun p => p.1)) }

/-- The fixed column set of `ProcessProbes.run`. -/
def columnsToRemove : List String :=
  ["Definition", "Ontology_Component", "Ontology_Process",
   "Ontology_Function", "Synonyms", "Obsolete_Probe_Id", "Probe_Sequence"]

/-! ### The sectioned-text parser (`ExtractAndProcessGeoDataset._process_content`) -/

/-- Parser state: the current section key (`None` initially), the buffered
lines of the current section, and the files written so far, in order. -/
structure PState where
  currentKey : Option String
  buffer : List String
  outputs : List (String × String)
deriving DecidableEq

/-- Python truthiness of `current_key`: `None` and the empty string are
falsy. -/
def keyTruthy : Option String → Bool
  | Option.none => false
  | Option.some s => !(s == "")

/-- Finalization of a section at a subsequent header line (source lines
113–120): `header = None if current_key == "Heading" else "infer"`, then the
frame is written to `<key>.tsv`. -/
def finalizeMid (key : String) (buf : List String) :
    Except String (String × String) :=
  let h : Header := if key = "Heading" then .none else .infer
  (readCsv buf h).map (fun df => (key ++ ".tsv", toCsv df))

/-- Finalization of the still-open section at end of input (source lines
126–130): `pd.read_csv(string_io, sep="\t")` with the default header mode. -/
def finalizeEnd (key : String) (buf : List String) :
    Except String (String × String) :=
  (readCsv buf .infer).map (fun df => (key ++ ".tsv", toCsv df))

/-- One step of the parser loop (source lines 111–125). A line starting with
`[` finalizes any truthy current section, resets the buffer and derives the
new key by `line.strip("[]\n")`; any other line is appended to the buffer iff
a truthy section is open. -/
def stepLine (st : PState) (line : String) : Except String PState :=
  if startsBracket line then
    let newKey := pyStrip line ['[', ']', '\n']
    if keyTruthy st.currentKey then
      match st.currentKey with
      | some key =>
          (finalizeMid key st.buffer).map (fun out =>
            ⟨some newKey, [], st.outputs ++ [out]⟩)
      | none => .ok ⟨some newKey, [], st.outputs⟩
    else .ok ⟨some newKey, [], st.outputs⟩
  else
    if keyTruthy st.currentKey then
      .ok { st with buffer := st.buffer ++ [line] }
    else .ok st

/-- `_process_content`: run the line loop over `content.splitlines()`, then
finalize a truthy still-open section with the end-of-input rule.  The result
is the ordered list of `(file name, file content)` pairs written, or the
pandas error that aborted the scan. -/
def processContent (content : String) :
    Except String (List (String × String)) := do
  let st ← (pySplitlines content).foldlM stepLine ⟨Option.none, [], []⟩
  match st.currentKey, keyTruthy st.currentKey with
  | some key, true => do
      let out ← finalizeEnd key st.buffer
      pure (st.outputs ++ [out])
  | _, _ => pure st.outputs

/-! ### Filesystem model -/

/-- A filesystem node: a file with byte content, or a directory with its
entries. -/
inductive FTree where
  | file (name : String) (content : String)
  | dir (name : String) (children : List FTree)

/-- The name of a directory entry (`os.listdir` yields both files and
subdirectories). -/
def FTree.entryName : FTree → String
  | .file n _ => n
  | .dir n _ => n

/-- Whether a node is a plain file. -/
def FTree.isFile : FTree → Bool
  | .file _ _ => true
  | .dir _ _ => false

mutual

/-- Every directory node `os.walk` visits starting at this node: the node
itself when it is a directory, then all nested directories.  Walking a plain
file visits nothing, matching `os.walk` on a non-directory path. -/
def walkDirs : FTree → List FTree
  | .file _ _ => []
  | .dir n cs => .dir n cs :: walkDirsForest cs

/-- `walkDirs` over a list of sibling entries. -/
def walkDirsForest : List FTree → List FTree
  | [] => []
  | t :: ts => walkDirs t ++ walkDirsForest ts

end

/-- The entries of a directory node (empty for a file). -/
def FTree.entries : FTree → List FTree
  | .file _ _ => []
  | .dir _ cs => cs

/-- The plain files of a directory node, as `(name, content)` pairs. -/
def FTree.files : FTree → List (String × String)
  | .file _ _ => []
  | .dir _ cs => cs.filterMap (fun c =>
      match c with
      | .file n x => some (n, x)
      | .dir _ _ => Option.none)

/-- `[f for f in os.listdir(dir_path) if f.endswith(".tsv")]` is non-empty:
any entry (file or subdirectory) whose name ends in `.tsv` counts. -/
def hasTsvEntry (t : FTree) : Bool :=
  t.entries.any (fun e => pyEndsWith e.entryName ".tsv")

/-- `ExtractAndProcessGeoDataset.complete` (source lines 87–99): false unless
the extraction root is an existing directory, then `os.walk` checks that every
directory below the root has a `.tsv`-named entry. -/
def extractComplete (root : Option FTree) : Bool :=
  match root with
  | Option.none => false
  | some (.file _ _) => false
  | some (.dir _ cs) => (walkDirsForest cs).all hasTsvEntry

/-- `"Probes.tsv" in files` for one walked directory (`os.walk` reports only
plain files in `files`). -/
def hasProbesFile (t : FTree) : Bool :=
  t.files.any (fun f => f.1 == "Probes.tsv")

/-- `os.path.exists(trimmed_path) and os.path.getsize(trimmed_path) > 0`
(source lines 189–191): `exists` is true for any directory entry of that
name, and `getsize` of a directory is its block size, which is positive —
so a subdirectory named `ProbesTrimmed.tsv` passes the check just like a
non-empty file of that name. -/
def trimmedOk (t : FTree) : Bool :=
  t.entries.any (fun e =>
    match e with
    | .file n c => n == "ProbesTrimmed.tsv" && !(c == "")
    | .dir n _ => n == "ProbesTrimmed.tsv")

/-- The directories an `os.walk` of the base path visits; walking a missing
base path (or a plain file) visits nothing. -/
def walkedDirs (root : Option FTree) : List FTree :=
  match root with
  | Option.none => []
  | some t => walkDirs t

/-- `ProcessProbes.complete` (source lines 178–195): walk the base path; the
result is `found_probes and all_trimmed`, where `found_probes` records that
some walked directory holds `Probes.tsv` and `all_trimmed` fails on the first
such directory lacking a non-empty `ProbesTrimmed.tsv`. -/
def probesComplete (root : Option FTree) : Bool :=
  ((walkedDirs root).any hasProbesFile) &&
    ((walkedDirs root).all (fun d => !hasProbesFile d || trimmedOk d))

/-- Write (create or overwrite) a file among directory entries. -/
def upsertFile (cs : List FTree) (name content : String) : List FTree :=
  if cs.any (fun c => c.isFile && c.entryName = name) then
    cs.map (fun c =>
      match c with
      | .file n _ => if n = name then .file n content else c
      | .dir n cs0 => .dir n cs0)
  else cs ++ [.file name content]

mutual

/-- `ProcessProbes.run` restricted to one subtree: in every walked directory
holding `Probes.tsv`, read it (`pd.read_csv(path, sep="\t")`), drop the fixed
column set (`errors="ignore"`), and write the result to the sibling
`ProbesTrimmed.tsv`; a pandas read error aborts the task. -/
def projectTree : FTree → Except String FTree
  | .file n c => .ok (.file n c)
  | .dir n cs => do
      let cs2 ← projectForest cs
      match (cs.filterMap (fun c =>
          match c with
          | .file nm x => if nm = "Probes.tsv" then some x else Option.none
          | .dir _ _ => Option.none)).head? with
      | some content => do
          let df ← readCsv (pySplitlines content) .infer
          .ok (.dir n (upsertFile cs2 "ProbesTrimmed.tsv"
                (toCsv (dropColumns df columnsToRemove))))
      | Option.none => .ok (.dir n cs2)

/-- `projectTree` over sibling entries. -/
def projectForest : List FTree → Except String (List FTree)
  | [] => .ok []
  | t :: ts => do
      let t2 ← projectTree t
      let ts2 ← projectForest ts
      .ok (t2 :: ts2)

end

/-! ### Pipeline model -/

/-- One member of the fetched archive: its (base) name and, for `.gz`
members, the decompressed text (gzip decoding is outside the core and is
modelled as already done). -/
structure Member where
  name : String
  text : String
deriving DecidableEq, Repr

/-- Materialize the ordered `(file, content)` writes of the parser as
directory entries; a later write to the same name overwrites. -/
def filesOfOutputs (outs : List (String × String)) : List FTree :=
  outs.foldl (fun acc o => upsertFile acc o.1 o.2) []

/-- Merge freshly written files into existing directory entries. -/
def mergeNewFiles (old new : List FTree) : List FTree :=
  new.foldl (fun acc f =>
    match f with
    | .file n c => upsertFile acc n c
    | .dir n cs => acc ++ [.dir n cs]) old

/-- Create the member's dedicated subdirectory (or reuse it) and merge the
member's extracted files into it. -/
def upsertMemberDir (cs : List FTree) (name : String) (newFiles : List FTree) :
    List FTree :=
  if cs.any (fun c => !c.isFile && c.entryName = name) then
    cs.map (fun c =>
      match c with
      | .file n x => .file n x
      | .dir n cs0 => if n = name then .dir n (mergeNewFiles cs0 newFiles) else .dir n cs0)
  else cs ++ [.dir name newFiles]

/-- Extraction of one member (source lines 76–85): the member is extracted
into a subdirectory named after its base name; a `.gz` member is decompressed,
removed, and split by the parser, so only the parser's section files land in
the subdirectory; any other member stays as a raw file. -/
def memberFiles (m : Member) : Except String (List FTree) :=
  if pyEndsWith m.name ".gz" then
    (processContent m.text).map filesOfOutputs
  else .ok [.file m.name m.text]

/-- The world a pipeline run acts on: the remote server's response status and
archive, the fetched tar file (abstracted as its member list; a written tar
archive is never zero bytes, so the fetch size check reduces to existence),
and the extraction root directory. -/
structure World where
  remoteStatus : Nat
  remoteArchive : List Member
  tarFile : Option (List Member)
  tree : Option FTree

/-- `DownloadGeoDataset.complete` (source lines 43–46): the tar file exists
and is non-empty (see `World` for the size abstraction). -/
def fetchCompleteW (w : World) : Bool :=
  w.tarFile.isSome

/-- `DownloadGeoDataset.run` (source lines 31–41): on a 200 response the full
content is written to the destination; otherwise an exception aborts the
run. -/
def fetchAction (w : World) : Except String World :=
  if w.remoteStatus = 200 then .ok { w with tarFile := some w.remoteArchive }
  else .error "FetchFailed"

/-- `ExtractAndProcessGeoDataset.complete` on the world's tree. -/
def extractCompleteW (w : World) : Bool :=
  extractComplete w.tree

/-- `ExtractAndProcessGeoDataset.run` (source lines 70–85): create the
extraction root, open the fetched tar (failing if it is missing), and extract
every member into its subdirectory in listing order; a parser error on any
member aborts the stage. -/
def extractAction (w : World) : Except String World :=
  match w.tarFile with
  | Option.none => .error "ContainerDecodeFailed"
  | some ms => do
      let start := match w.tree with
        | some (.dir _ cs) => cs
        | _ => []
      let cs ← ms.foldlM (fun acc m => do
        let fs ← memberFiles m
        .ok (upsertMemberDir acc m.name fs)) start
      .ok { w with tree := some (.dir "series" cs) }

/-- `ProcessProbes.complete` on the world's tree. -/
def projectCompleteW (w : World) : Bool :=
  probesComplete w.tree

/-- `ProcessProbes.run` (source lines 157–176) on the world's tree; walking a
missing base path does nothing. -/
def projectAction (w : World) : Except String World :=
  match w.tree with
  | Option.none => .ok w
  | some t => (projectTree t).map (fun t2 => { w with tree := some t2 })

/-- Run one stage of the scheduler: skip it when its completeness predicate
holds, otherwise execute its action; the Boolean records whether the action
executed. -/
def runStage (c : World → Bool) (a : World → Except String World) (w : World) :
    Except String (World × Bool) :=
  if c w then .ok (w, false) else (a w).map (fun w2 => (w2, true))

/-- One full pipeline invocation: the fixed chain Fetch → Extract → Project,
each stage gated by its completeness predicate, failures propagating
immediately.  Returns the final world and which stage actions executed. -/
def runPipelineOnce (w : World) :
    Except String (World × (Bool × Bool × Bool)) :=
  match runStage fetchCompleteW fetchAction w with
  | .error e => .error e
  | .ok (w1, e1) =>
    match runStage extractCompleteW extractAction w1 with
    | .error e => .error e
    | .ok (w2, e2) =>
      match runStage projectCompleteW projectAction w2 with
      | .error e => .error e
      | .ok (w3, e3) => .ok (w3, (e1, e2, e3))

/-! ### The byte-level fetch contract -/

/-- The collaborator's response: HTTP status code and full body bytes. -/
structure HttpResponse where
  statusCode : Nat
  content : String
deriving DecidableEq

/-- `DownloadGeoDataset.run` at the byte level (source lines 31–41): on a
200 response the full content is written to the destination file and returned
here; on any other status the raised exception's message is returned. -/
def downloadRun (resp : HttpResponse) : Except String String :=
  if resp.statusCode = 200 then .ok resp.content
  else .error ("Failed to download file with status code "
                ++ toString resp.statusCode)

/-! ### Spec-side predicates, for comparison with the code's predicates -/

/-- The Extract completeness condition in the words of the specification:
every directory below the root contains at least one plain *file* whose name
ends in `.tsv` (the code counts any directory entry). -/
def extractCompleteSpec (root : Option FTree) : Bool :=
  match root with
  | some (.dir _ cs) =>
      (walkDirsForest cs).all (fun d => d.files.any (fun f => pyEndsWith f.1 ".tsv"))
  | _ => false

/-- The directories strictly below the extraction root, i.e. every
`dir_name` the nested loop of `ExtractAndProcessGeoDataset.complete`
inspects. -/
def subdirsUnder (root : Option FTree) : List FTree :=
  match root with
  | some (.dir _ cs) => walkDirsForest cs
  | _ => []

/-- The Project completeness condition in the words of the specification: a
pure universal quantification, with no requirement that any probe table
exists at all. -/
def probesCompleteSpec (root : Option FTree) : Bool :=
  (walkedDirs root).all (fun d => !hasProbesFile d || trimmedOk d)

/-! ### Concrete fixtures -/

/-- A single-member archive whose payload parses into one section file. -/
def memberA : Member := ⟨"a.gz", "[A]\ncol\n1\n"⟩

/-- A storage root that has never been touched. -/
def worldFresh : World := ⟨200, [memberA], Option.none, Option.none⟩

/-- The storage root after one successful full run on `worldFresh`. -/
def worldDone : World :=
  ⟨200, [memberA], some [memberA],
    some (.dir "series" [.dir "a.gz" [.file "A.tsv" "col\n1\n"]])⟩

/-- A storage root satisfying all three completeness predicates. -/
def worldAllComplete : World :=
  ⟨200, [memberA], some [memberA],
    some (.dir "series"
      [.dir "p" [.file "Probes.tsv" "ID\tDefinition\n7\td\n",
                 .file "ProbesTrimmed.tsv" "ID\n7\n"]])⟩

/-- A fetched tar together with an extraction root that exists but contains
no subdirectories at all. -/
def worldEmptyRoot : World :=
  ⟨200, [memberA], some [memberA], some (.dir "series" [])⟩

/-- A world whose remote answers with status 404 and nothing fetched yet. -/
def world404 : World := ⟨404, [], Option.none, Option.none⟩

/-- A tree whose only member directory has no `.tsv` file, but holds a
subdirectory whose *name* ends in `.tsv`. -/
def tsvNamedDirTree : Option FTree :=
  some (.dir "root" [.dir "d1" [.dir "b.tsv" [.file "c.tsv" "x"]]])

/-- A tree where exactly one member directory has zero `.tsv` files and the
other is populated. -/
def oneEmptyMemberTree : Option FTree :=
  some (.dir "root" [.dir "m1" [.file "A.tsv" "x"], .dir "m2" []])

/-- An extraction tree containing no `Probes.tsv` anywhere. -/
def noProbesTree : Option FTree :=
  some (.dir "root" [.dir "m" [.file "A.tsv" "x"]])

end GeoPipeline

deriving instance DecidableEq for Except

namespace GeoPipeline

/-! ### Claim theorems -/

/-- C1 (counterexample): on input `"[A]\n[B]\nx\n"` the parser does not
produce any output set at all — it aborts with a pandas `EmptyDataError`
while finalizing the data-less section `A`, so neither an `A` artifact nor
`B.tsv` is written. -/
theorem c1_counterexample :
    ¬ ∃ outs, processContent "[A]\n[B]\nx\n" = Except.ok outs := by
  rintro ⟨outs, h⟩
  have he : processContent "[A]\n[B]\nx\n" = Except.error "EmptyDataError" := rfl
  rw [he] at h
  exact Except.noConfusion h

/-- C1 (amended): a section whose buffer holds no non-blank line is not
finalized into a file — the table reader raises `EmptyDataError`, both when
the section is closed by a subsequent header line and at end of input; in
particular the input `"[A]\n[B]\nx\n"` aborts the whole parse with that
error. -/
theorem c1_empty_section_raises (key : String) (buf : List String)
    (h : buf.all (fun l => l == "") = true) :
    finalizeMid key buf = Except.error "EmptyDataError" ∧
    finalizeEnd key buf = Except.error "EmptyDataError" ∧
    processContent "[A]\n[B]\nx\n" = Except.error "EmptyDataError" := by
  have hf : buf.filter (fun l => !(l == "")) = [] := by
    rw [List.filter_eq_nil_iff]
    intro a ha
    have := List.all_eq_true.mp h a ha
    simpa using this
  have hr : ∀ hd : Header, readCsv buf hd = Except.error "EmptyDataError" := by
    intro hd
    unfold readCsv
    rw [hf]
    cases hd <;> rfl
  refine ⟨?_, ?_, rfl⟩
  · unfold finalizeMid
    simp only [hr]
    rfl
  · unfold finalizeEnd
    rw [hr]
    rfl

/-- C1 (witness): the amended statement instantiated at section key `A` with
an empty buffer. -/
theorem c1_witness :
    (([] : List String).all (fun l => l == "") = true) ∧
    (finalizeMid "A" [] = Except.error "EmptyDataError" ∧
      finalizeEnd "A" [] = Except.error "EmptyDataError" ∧
      processContent "[A]\n[B]\nx\n" = Except.error "EmptyDataError") :=
  ⟨by decide, c1_empty_section_raises "A" [] (by decide)⟩

/-- C2 (counterexample): the end-of-input finalization rule differs from the
mid-input rule on a section literally named `Heading` — on the buffer
`["foo\tbar"]` the two rules produce different files, and for the input
`"[Heading]\nfoo\tbar\n"` the final `Heading` section is materialized with
its first line inferred as a header row, not as data. -/
theorem c2_counterexample :
    finalizeEnd "Heading" ["foo\tbar"] ≠ finalizeMid "Heading" ["foo\tbar"] ∧
    processContent "[Heading]\nfoo\tbar\n" =
      Except.ok [("Heading.tsv", "foo\tbar\n")] :=
  ⟨by decide, rfl⟩

/-- C2 (amended): the end-of-input finalization agrees with the mid-input
finalization exactly for sections not named `Heading`; a last section named
`Heading` is instead read with the default header inference, because the
end-of-input `pd.read_csv` call omits the `header` argument. -/
theorem c2_end_rule_nonheading (key : String) (buf : List String)
    (h : key ≠ "Heading") :
    finalizeEnd key buf = finalizeMid key buf := by
  unfold finalizeEnd finalizeMid
  rw [if_neg h]

/-- C2 (witness): the amended statement instantiated at section `Data`. -/
theorem c2_witness :
    ("Data" ≠ "Heading") ∧
    finalizeEnd "Data" ["a\tb", "1\t2"] = finalizeMid "Data" ["a\tb", "1\t2"] :=
  ⟨by decide, c2_end_rule_nonheading "Data" ["a\tb", "1\t2"] (by decide)⟩

/-- C3 (counterexample): on input
`"[Heading]\nfoo\tbar\n[Data]\ncol1\tcol2\n1\t2\n"` the parser does not
write `Heading.tsv` as exactly the line `foo\tbar`: the claimed output pair
is not the result. -/
theorem c3_counterexample :
    processContent "[Heading]\nfoo\tbar\n[Data]\ncol1\tcol2\n1\t2\n" ≠
      Except.ok [("Heading.tsv", "foo\tbar\n"),
                 ("Data.tsv", "col1\tcol2\n1\t2\n")] := by
  decide

/-- C3 (amended): the input produces exactly two files, but `Heading.tsv`
carries a synthesized integer-label header line `0\t1` before `foo\tbar`,
because `to_csv` writes the `RangeIndex` column labels created by
`header=None`; `Data.tsv` is `col1\tcol2` followed by `1\t2` as claimed. -/
theorem c3_round_trip_actual :
    processContent "[Heading]\nfoo\tbar\n[Data]\ncol1\tcol2\n1\t2\n" =
      Except.ok [("Heading.tsv", "0\t1\nfoo\tbar\n"),
                 ("Data.tsv", "col1\tcol2\n1\t2\n")] := rfl

/-- C7 (counterexample): a status-200 response with zero-byte content does
not signal any error — the empty content is written to the destination
file, contradicting the claim that a truncated/zero-byte result raises
`FetchFailed`. -/
theorem c7_counterexample :
    downloadRun ⟨200, ""⟩ = Except.ok "" := rfl

/-- C7 (amended): the fetch stage raises exactly when the response status is
not 200 — on a 200 response the full byte content (even zero bytes) is
written without error — and a fetch failure aborts the whole pipeline
run. -/
theorem c7_fetch_failure_rule :
    (∀ resp : HttpResponse,
        (resp.statusCode = 200 → downloadRun resp = Except.ok resp.content) ∧
        (resp.statusCode ≠ 200 →
          downloadRun resp = Except.error
            ("Failed to download file with status code "
              ++ toString resp.statusCode))) ∧
    (∀ w : World, fetchCompleteW w = false → w.remoteStatus ≠ 200 →
        runPipelineOnce w = Except.error "FetchFailed") := by
  constructor
  · intro resp
    constructor
    · intro h
      unfold downloadRun
      rw [if_pos h]
    · intro h
      unfold downloadRun
      rw [if_neg h]
  · intro w hc hs
    simp only [runPipelineOnce, runStage, fetchAction, hc, hs, Bool.false_eq_true,
      if_false, if_neg hs, Except.map]

/-- C7 (witness): the amended statement instantiated at a 404 response and a
fresh world whose remote answers 404. -/
theorem c7_witness :
    downloadRun ⟨404, "z"⟩ =
      Except.error "Failed to download file with status code 404" ∧
    runPipelineOnce world404 = Except.error "FetchFailed" :=
  ⟨by
      have := (c7_fetch_failure_rule.1 ⟨404, "z"⟩).2 (by decide)
      simpa using this,
    c7_fetch_failure_rule.2 world404 (by decide) (by decide)⟩

/-- C4 (counterexample): after one successful full run on a fresh storage
root whose dataset yields no `Probes.tsv`, the second run leaves every byte
identical, but the Project stage's completeness predicate is still false
(`found_probes` never becomes true), so the Project action is executed
again — the second run is not action-free. -/
theorem c4_counterexample :
    runPipelineOnce worldFresh = Except.ok (worldDone, (true, true, true)) ∧
    runPipelineOnce worldDone = Except.ok (worldDone, (false, false, true)) :=
  ⟨rfl, rfl⟩

/-- C4 (amended): whenever the storage root satisfies all three completeness
predicates, a full pipeline run is a no-op: it executes none of the three
stage actions and returns the state unchanged.  (A successful first run does
not always establish all three predicates: a dataset without `Probes.tsv`,
or a member directory without `.tsv` files, leaves one of them false.) -/
theorem c4_second_run_noop (w : World)
    (h1 : fetchCompleteW w = true)
    (h2 : extractCompleteW w = true)
    (h3 : projectCompleteW w = true) :
    runPipelineOnce w = Except.ok (w, (false, false, false)) := by
  simp [runPipelineOnce, runStage, h1, h2, h3]

/-- C4 (witness): the amended statement instantiated at a storage root whose
tar, extraction tree, and trimmed probe table are all in place. -/
theorem c4_witness :
    runPipelineOnce worldAllComplete =
      Except.ok (worldAllComplete, (false, false, false)) :=
  c4_second_run_noop worldAllComplete (by decide) (by decide) (by decide)

/-- C5 (counterexample): the Extract completeness predicate counts any
directory entry named `*.tsv`, not only files — on a tree whose only member
directory contains no `.tsv` file but holds a subdirectory named `b.tsv`,
the code's predicate returns true while the claimed condition (at least one
*file* with the `.tsv` extension in every subdirectory) is false. -/
theorem c5_counterexample :
    extractComplete tsvNamedDirTree = true ∧
    extractCompleteSpec tsvNamedDirTree = false := by
  decide

/-- C5 (amended): the Extract completeness predicate returns true iff the
destination directory exists and every directory below it contains at least
one directory entry (file or subdirectory) whose name ends in `.tsv`; in
particular a tree where exactly one member directory has zero `.tsv` entries
and the other is populated is judged incomplete. -/
theorem c5_extract_complete_iff :
    (∀ root : Option FTree,
        extractComplete root = true ↔
          ((∃ n cs, root = some (.dir n cs)) ∧
            ∀ d ∈ subdirsUnder root,
              ∃ e ∈ d.entries, pyEndsWith e.entryName ".tsv" = true)) ∧
    extractComplete oneEmptyMemberTree = false := by
  refine ⟨?_, by decide⟩
  intro root
  match root with
  | Option.none => simp [extractComplete]
  | some (.file n c) => simp [extractComplete]
  | some (.dir n cs) =>
      constructor
      · intro hall
        refine ⟨⟨n, cs, rfl⟩, ?_⟩
        intro d hd
        have := List.all_eq_true.mp hall d hd
        simpa [hasTsvEntry, List.any_eq_true] using this
      · rintro ⟨-, hall⟩
        rw [extractComplete, List.all_eq_true]
        intro d hd
        have := hall d hd
        simpa [hasTsvEntry, List.any_eq_true] using this

/-- C6 (counterexample): on a tree containing no `Probes.tsv` at all, the
code's Project completeness predicate returns false (its `found_probes`
conjunct fails), while the claimed pure universal quantification returns
true. -/
theorem c6_counterexample :
    probesComplete noProbesTree = false ∧
    probesCompleteSpec noProbesTree = true := by
  decide

/-- C6 (amended): the Project completeness predicate returns true iff at
least one walked directory contains a `Probes.tsv` file and every walked
directory that contains one also passes the exists-and-nonzero-size check on
`ProbesTrimmed.tsv` — it holds a directory entry of that name that is either
a subdirectory (whose `getsize` is its positive block size) or a non-empty
file; on a tree with no `Probes.tsv` the predicate returns false, not
true. -/
theorem c6_probes_complete_iff (root : Option FTree) :
    probesComplete root = true ↔
      ((∃ d ∈ walkedDirs root, ∃ p ∈ d.files, p.1 = "Probes.tsv") ∧
        ∀ d ∈ walkedDirs root,
          (∃ p ∈ d.files, p.1 = "Probes.tsv") →
            ∃ e ∈ d.entries, e.entryName = "ProbesTrimmed.tsv" ∧
              ∀ n c, e = FTree.file n c → c ≠ "") := by
  have ht : ∀ d : FTree, trimmedOk d = true ↔
      ∃ e ∈ d.entries, e.entryName = "ProbesTrimmed.tsv" ∧
        ∀ n c, e = FTree.file n c → c ≠ "" := by
    intro d
    rw [trimmedOk, List.any_eq_true]
    constructor
    · rintro ⟨e, he, hp⟩
      refine ⟨e, he, ?_⟩
      cases e with
      | file n c =>
          simp only [Bool.and_eq_true, beq_iff_eq, Bool.not_eq_true',
            beq_eq_false_iff_ne] at hp
          refine ⟨hp.1, ?_⟩
          intro n2 c2 heq
          injection heq with hn hc
          exact hc ▸ hp.2
      | dir n cs =>
          simp only [beq_iff_eq] at hp
          exact ⟨hp, fun n2 c2 heq => FTree.noConfusion heq⟩
    · rintro ⟨e, he, h1, h2⟩
      refine ⟨e, he, ?_⟩
      cases e with
      | file n c =>
          simp only [Bool.and_eq_true, beq_iff_eq, Bool.not_eq_true',
            beq_eq_false_iff_ne]
          exact ⟨h1, h2 n c rfl⟩
      | dir n cs =>
          simp only [beq_iff_eq]
          exact h1
  rw [probesComplete, Bool.and_eq_true, List.any_eq_true, List.all_eq_true]
  constructor
  · rintro ⟨⟨d, hd, hp⟩, hall⟩
    constructor
    · exact ⟨d, hd, by simpa [hasProbesFile, List.any_eq_true] using hp⟩
    · intro d2 hd2 hp2
      have hb : hasProbesFile d2 = true := by
        simpa [hasProbesFile, List.any_eq_true] using hp2
      have := hall d2 hd2
      rw [Bool.or_eq_true, Bool.not_eq_true', hb] at this
      rcases this with h | h
      · exact absurd h (by simp)
      · exact (ht d2).mp h
  · rintro ⟨⟨d, hd, hp⟩, hall⟩
    constructor
    · exact ⟨d, hd, by simpa [hasProbesFile, List.any_eq_true] using hp⟩
    · intro d2 hd2
      rw [Bool.or_eq_true, Bool.not_eq_true']
      by_cases hb : hasProbesFile d2 = true
      · right
        exact (ht d2).mpr
          (hall d2 hd2 (by simpa [hasProbesFile, List.any_eq_true] using hb))
      · left
        exact Bool.not_eq_true _ ▸ (Bool.eq_false_iff.mpr hb)

/-- C6 (witness): the amended statement instantiated at the tree with no
probe table. -/
theorem c6_witness :
    probesComplete noProbesTree = true ↔
      ((∃ d ∈ walkedDirs noProbesTree, ∃ p ∈ d.files, p.1 = "Probes.tsv") ∧
        ∀ d ∈ walkedDirs noProbesTree,
          (∃ p ∈ d.files, p.1 = "Probes.tsv") →
            ∃ e ∈ d.entries, e.entryName = "ProbesTrimmed.tsv" ∧
              ∀ n c, e = FTree.file n c → c ≠ "") :=
  c6_probes_complete_iff noProbesTree

/-- C8 (confirmed): dropping a requested column set from a table never
fails, removes exactly the requested columns that are present, and keeps the
remaining columns in their original relative order; in particular removing
`{Definition, NotPresent}` from a table lacking `NotPresent` removes only
`Definition`, and the projection of a `Probes.tsv` table is written to the
sibling file `ProbesTrimmed.tsv`. -/
theorem c8_projection_subset_tolerance :
    (∀ (df : DataFrame) (toRemove : List String),
        (∀ c, c ∈ (dropColumns df toRemove).cols ↔ c ∈ df.cols ∧ c ∉ toRemove) ∧
        (dropColumns df toRemove).cols.Sublist df.cols) ∧
    dropColumns ⟨["ID", "Definition", "Species"], [["7", "d", "h"]]⟩
        ["Definition", "NotPresent"] = ⟨["ID", "Species"], [["7", "h"]]⟩ ∧
    projectTree (.dir "m" [.file "Probes.tsv" "ID\tDefinition\n7\td\n"]) =
      Except.ok (.dir "m" [.file "Probes.tsv" "ID\tDefinition\n7\td\n",
                           .file "ProbesTrimmed.tsv" "ID\n7\n"]) := by
  refine ⟨?_, rfl, rfl⟩
  intro df toRemove
  constructor
  · intro c
    simp [dropColumns, List.mem_filter, List.elem_iff]
  · exact List.filter_sublist _

/-- C8 (witness): the column-membership characterization instantiated at the
concrete subset-tolerance example. -/
theorem c8_witness :
    "Definition" ∈
        (dropColumns ⟨["ID", "Definition", "Species"], [["7", "d", "h"]]⟩
          ["Definition", "NotPresent"]).cols ↔
      "Definition" ∈ ["ID", "Definition", "Species"] ∧
        "Definition" ∉ ["Definition", "NotPresent"] :=
  (c8_projection_subset_tolerance.1
    ⟨["ID", "Definition", "Species"], [["7", "d", "h"]]⟩
    ["Definition", "NotPresent"]).1 "Definition"

/-- C9 (confirmed): if the extraction root exists but contains no
subdirectories at all, the Extract completeness predicate is vacuously true;
consequently a pipeline re-run on such a root (with the tar in place) skips
the Extract stage even though nothing was extracted. -/
theorem c9_vacuous_extract_complete (n : String) (cs : List FTree)
    (h : cs.all FTree.isFile = true) :
    extractComplete (some (.dir n cs)) = true ∧
    runPipelineOnce worldEmptyRoot =
      Except.ok (worldEmptyRoot, (false, false, true)) := by
  refine ⟨?_, rfl⟩
  have hnil : ∀ l : List FTree, l.all FTree.isFile = true → walkDirsForest l = [] := by
    intro l
    induction l with
    | nil => intro _; rfl
    | cons c cs2 ih =>
        intro hl
        rw [List.all_cons, Bool.and_eq_true] at hl
        cases c with
        | file a b =>
            rw [walkDirsForest, walkDirs, List.nil_append]
            exact ih hl.2
        | dir a b => exact absurd hl.1 (by simp [FTree.isFile])
  rw [extractComplete, hnil cs h]
  rfl

/-- C9 (witness): the vacuous-completeness statement instantiated at a root
directory holding a single plain file and the concrete one-member world with
an empty extraction root. -/
theorem c9_witness :
    extractComplete (some (.dir "series" [.file "f" "x"])) = true ∧
    runPipelineOnce worldEmptyRoot =
      Except.ok (worldEmptyRoot, (false, false, true)) :=
  c9_vacuous_extract_complete "series" [.file "f" "x"] (by decide)

/-- C10 (confirmed): every line whose first character is `[` is treated as a
section header regardless of any closing bracket — the parser state after it
has the section name obtained by stripping leading/trailing `[`, `]` and
newline characters and an empty buffer — and a line is only ever appended to
a section buffer when it does not start with `[`. -/
theorem c10_header_classification :
    (∀ (st : PState) (line : String) (st2 : PState),
        startsBracket line = true → stepLine st line = Except.ok st2 →
        st2.currentKey = some (pyStrip line ['[', ']', '\n']) ∧
          st2.buffer = []) ∧
    (∀ (st : PState) (line : String) (st2 : PState),
        stepLine st line = Except.ok st2 →
        ∀ l ∈ st2.buffer, l ∈ st.buffer ∨
          (l = line ∧ startsBracket l = false)) := by
  constructor
  · intro st line st2 hline hstep
    rw [stepLine, if_pos hline] at hstep
    split at hstep
    · split at hstep
      · rcases hm : finalizeMid _ st.buffer with e | out
        · rw [hm] at hstep
          exact Except.noConfusion hstep
        · rw [hm] at hstep
          simp only [Except.map, Except.ok.injEq] at hstep
          rw [← hstep]
          exact ⟨rfl, rfl⟩
      · rw [Except.ok.injEq] at hstep
        rw [← hstep]
        exact ⟨rfl, rfl⟩
    · rw [Except.ok.injEq] at hstep
      rw [← hstep]
      exact ⟨rfl, rfl⟩
  · intro st line st2 hstep l hl
    rw [stepLine] at hstep
    split at hstep
    · rename_i hline
      split at hstep
      · split at hstep
        · rcases hm : finalizeMid _ st.buffer with e | out
          · rw [hm] at hstep
            exact Except.noConfusion hstep
          · rw [hm] at hstep
            simp only [Except.map, Except.ok.injEq] at hstep
            rw [← hstep] at hl
            exact absurd hl (List.not_mem_nil l)
        · rw [Except.ok.injEq] at hstep
          rw [← hstep] at hl
          exact absurd hl (List.not_mem_nil l)
      · rw [Except.ok.injEq] at hstep
        rw [← hstep] at hl
        exact absurd hl (List.not_mem_nil l)
    · rename_i hline
      split at hstep
      · rw [Except.ok.injEq] at hstep
        rw [← hstep] at hl
        rcases List.mem_append.mp hl with hmem | hmem
        · exact Or.inl hmem
        · right
          have hle : l = line := by simpa using hmem
          refine ⟨hle, ?_⟩
          rw [hle]
          exact Bool.eq_false_iff.mpr hline
      · rw [Except.ok.injEq] at hstep
        rw [← hstep] at hl
        exact Or.inl hl

/-- C10 (witness): the classification instantiated at the unclosed header
line `"[Data"` from the empty state, and the append invariant at a data line
in an open section. -/
theorem c10_witness :
    ((⟨some "Data", [], []⟩ : PState).currentKey =
        some (pyStrip "[Data" ['[', ']', '\n']) ∧
      (⟨some "Data", [], []⟩ : PState).buffer = []) ∧
    (∀ l ∈ (⟨some "A", ["x"], []⟩ : PState).buffer,
        l ∈ (⟨some "A", [], []⟩ : PState).buffer ∨
          (l = "x" ∧ startsBracket l = false)) :=
  ⟨c10_header_classification.1 ⟨Option.none, [], []⟩ "[Data"
      ⟨some "Data", [], []⟩ (by decide) (by decide),
    c10_header_classification.2 ⟨some "A", [], []⟩ "x"
      ⟨some "A", ["x"], []⟩ (by decide)⟩

end GeoPipeline
